import Mathlib

/-! Verification development for the Oklahoma orphan-well reactivation
analyzer.

The Python sources are shallowly embedded:
* `src/analysis/reactivation.py` — record normalization, production metrics,
  trend analysis, the categorization decision list, business recommendations.
* `src/features/production.py` — trailing-window aggregates, consistency
  statistics, pre-shut-in metrics (abrupt-stop flag).
* `src/pipelines/phase0_desktop.py` — the batch ranking layer: eligibility
  filter, percentile normalization, composite score, penalties, sorting.

Monthly gas volumes (Python floats) are modelled as rationals; the trailing-12
coefficient of variation, which involves a square root, lives in `ℝ`.
Report dates are modelled as integer month indices (a calendar month offset),
which preserves ordering and the `DateOffset(months=k)` arithmetic used by the
windowing code.  Formatted analysis strings interpolate metric values; the
interpolated numbers are not modelled (no claim depends on them).
-/

namespace OrphanWells

/-- Source: `np.clip(x, lo, hi)` / `Series.clip(lo, hi)`: clamp `x` into `[lo, hi]`. -/
def clip {α : Type} [LinearOrder α] (x lo hi : α) : α :=
  max lo (min x hi)

/-- Python `df.tail(n)` / `s.tail(n)`: the last `min n (length l)` elements. -/
def tailN {α : Type} (n : ℕ) (l : List α) : List α :=
  l.drop (l.length - n)

/-- Source: `Series.mean()` guarded by the `if not s.empty else 0.0` idiom used at
every call site in the sources. -/
def listMean (l : List ℚ) : ℚ :=
  if l = [] then 0 else l.sum / (l.length : ℚ)

/-- Source: `Series.max()` guarded by the `if not s.empty else 0` idiom used at every
call site in the sources. -/
def listMax (l : List ℚ) : ℚ :=
  match l with
  | [] => 0
  | x :: xs => xs.foldl max x

/-! Embedding: `src/config/constants.py` -/

/-- Source: `PRODUCTION_THRESHOLDS['HIGH_CONSISTENT']` (MCF/month). -/
def HIGH_CONSISTENT : ℚ := 4000

/-- Source: `PRODUCTION_THRESHOLDS['SURGE_PEAK']` (MCF/month). -/
def SURGE_PEAK : ℚ := 20000

/-- Source: `PRODUCTION_THRESHOLDS['VIABLE_MINIMUM']` (MCF/month). -/
def VIABLE_MINIMUM : ℚ := 1000

/-- Source: `PRODUCTION_THRESHOLDS['ANALYSIS_MONTHS']`. -/
def ANALYSIS_MONTHS : ℕ := 24

/-- Source: `BUSINESS_PRIORITY['IMMEDIATE']`. -/
def BUSINESS_PRIORITY_IMMEDIATE : ℤ := 85

/-- Source: `BUSINESS_PRIORITY['HIGH']`. -/
def BUSINESS_PRIORITY_HIGH : ℤ := 70

/-- Source: `BUSINESS_PRIORITY['MODERATE']`. -/
def BUSINESS_PRIORITY_MODERATE : ℤ := 50

/-- Source: `REACTIVATION_CATEGORIES[c]['name']` (display-name lookup; the analyzer
only ever indexes with the eight known category keys). -/
def category_name_of (c : String) : String :=
  if c = "HIGH_POTENTIAL" then "🏆 HIGH POTENTIAL - Consistent 4k+ MCF"
  else if c = "SURGE_POTENTIAL" then "⚡ SURGE POTENTIAL - Recent 20k+ MCF peaks"
  else if c = "DECLINING_VIABLE" then "📈 DECLINING BUT VIABLE - 1k-4k MCF range"
  else if c = "SPORADIC_STRONG" then "🔍 SPORADIC BUT STRONG HISTORY"
  else if c = "SPORADIC_MODERATE" then "🔍 SPORADIC MODERATE HISTORY"
  else if c = "LOW_POTENTIAL" then "❌ LOW REACTIVATION POTENTIAL"
  else if c = "NO_PRODUCTION" then "❌ NO HISTORICAL PRODUCTION"
  else if c = "NO_DATA" then "❌ NO PRODUCTION DATA"
  else ""

/-! Embedding: `src/analysis/reactivation.py` — recommendation blocks -/

/-- The fixed recommendation block returned by
`_generate_business_recommendations`. -/
structure Recommendation where
  priority : String
  action : String
  timeline : String
  investment : String
  risk_level : String
  next_steps : List String
deriving DecidableEq, Repr

/-- Source: `_generate_business_recommendations(score, category)`: a pure band lookup
over `BUSINESS_PRIORITY` breakpoints.  The `category` argument is accepted (as
in the source) but never read. -/
def generate_business_recommendations (score : ℤ) (category : String) :
    Recommendation :=
  if BUSINESS_PRIORITY_IMMEDIATE ≤ score then
    { priority := "IMMEDIATE"
      action := "Fast-track to Phase 1 field survey"
      timeline := "Within 30 days"
      investment := "High confidence - consider fast-track acquisition"
      risk_level := "Low"
      next_steps := ["Schedule immediate site visit",
                     "Begin landowner contact",
                     "Prepare acquisition offer",
                     "Minimal reservoir validation needed"] }
  else if BUSINESS_PRIORITY_HIGH ≤ score then
    { priority := "HIGH"
      action := "Include in Phase 2 reservoir validation"
      timeline := "Within 60 days"
      investment := "Worth detailed technical assessment"
      risk_level := "Low-Medium"
      next_steps := ["Field survey in next batch",
                     "Reservoir engineering review",
                     "Infrastructure assessment",
                     "Economic modeling"] }
  else if BUSINESS_PRIORITY_MODERATE ≤ score then
    { priority := "MODERATE"
      action := "Conditional target - requires Phase 2 analysis"
      timeline := "Within 90 days"
      investment := "Lower priority unless exceptional circumstances"
      risk_level := "Medium"
      next_steps := ["Include in batch analysis",
                     "Detailed reservoir validation required",
                     "Economic sensitivity analysis",
                     "Consider as part of package deal"] }
  else
    { priority := "LOW"
      action := "Consider only if part of package deal"
      timeline := "No immediate action"
      investment := "High risk - avoid individual acquisition"
      risk_level := "High"
      next_steps := ["Monitor for status changes",
                     "Consider for package deals only",
                     "Low priority for resources"] }

/-! Embedding: `src/analysis/reactivation.py` — data preparation

A raw production record is a string-keyed mapping.  A field is `some v` when
the record carries the key (pandas column membership) and `none` when it does
not.  For the gas fields, `v` is the value after `pd.to_numeric(errors =
coerce).fillna(0)`, so a present-but-unparseable value is `some 0` — exactly
what the coercion produces.  `reportDate` is doubly optional: the outer layer
is key presence (column membership), the inner layer is parse success
(`pd.to_datetime(errors = coerce)`, `NaT ↦ none`). -/

structure ProdRecord where
  wellGas : Option ℚ
  totalGas : Option ℚ
  reportDate : Option (Option ℤ)
  reportYear : Option ℤ
  reportMonth : Option ℤ
deriving DecidableEq, Repr

/-- Batch-level gas-volume resolution from `_prepare_production_data` (the
`if gas_primary in df.columns / elif gas_fallback in df.columns / else`
branch): column presence is decided once over the whole record list, then the
chosen column is read per record (`none ↦ NaN ↦ fillna(0) ↦ 0`). -/
def gasOf (records : List ProdRecord) (r : ProdRecord) : ℚ :=
  if records.any (fun s => s.wellGas.isSome) then r.wellGas.getD 0
  else if records.any (fun s => s.totalGas.isSome) then r.totalGas.getD 0
  else 0

/-- Batch-level date resolution from `_prepare_production_data`: prefer the
`reportDate` column when present (a record lacking the key, or whose value
does not parse, gets `NaT`, i.e. `none`); else assemble `12*year + month`
from the year/month columns; else no date is resolvable for any record (the
source returns an empty DataFrame there, which the positive-gas filter below
reproduces observably). -/
def dateOf (records : List ProdRecord) (r : ProdRecord) : Option ℤ :=
  if records.any (fun s => s.reportDate.isSome) then r.reportDate.getD none
  else if records.any (fun s => s.reportYear.isSome) &&
          records.any (fun s => s.reportMonth.isSome) then
    match r.reportYear, r.reportMonth with
    | some y, some m => some (12 * y + m)
    | _, _ => none
  else none

/-- Source: `_prepare_production_data`: keep rows with positive resolved gas and a
resolvable date, sorted ascending by date (`sort_values('production_date')`,
modelled by a stable insertion sort). -/
def prepare_production_data (records : List ProdRecord) : List ProdRecord :=
  List.insertionSort
    (fun a b => (dateOf records a).getD 0 ≤ (dateOf records b).getD 0)
    (records.filter
      (fun r => decide (0 < gasOf records r) && (dateOf records r).isSome))

/-! Embedding: `src/analysis/reactivation.py` — production metrics and categorization

`_calculate_production_metrics` computes its threshold counts and recent
statistics from `recent_df = df.tail(ANALYSIS_MONTHS)` over the normalized
(positive-gas, date-sorted) series; the functions below take that series'
gas column directly. -/

/-- Source: `recent_df = df.tail(self.thresholds.get('ANALYSIS_MONTHS', 24))`. -/
def recent_df (ns : List ℚ) : List ℚ := tailN ANALYSIS_MONTHS ns

/-- Source: `len(recent_df[recent_df['gas_mcf'] >= t])`: number of months in the
trailing analysis window at or above threshold `t`. -/
def months_above (t : ℚ) (ns : List ℚ) : ℕ :=
  ((recent_df ns).filter (fun x => decide (t ≤ x))).length

/-- Source: `recent_avg = recent_df['gas_mcf'].mean() if not recent_df.empty else 0`. -/
def recent_avg (ns : List ℚ) : ℚ := listMean (recent_df ns)

/-- Source: `recent_max = recent_df['gas_mcf'].max() if not recent_df.empty else 0`. -/
def recent_max (ns : List ℚ) : ℚ := listMax (recent_df ns)

/-- Source: `max_production = df['gas_mcf'].max()` over the whole normalized series. -/
def max_production_ever (ns : List ℚ) : ℚ := listMax ns

/-- Source: `_analyze_production_trend`: qualitative trend label over the normalized
series (float literals `1.1` and `0.9` modelled by their decimal values). -/
def analyze_production_trend (ns : List ℚ) : String :=
  if ns.length < 12 then "INSUFFICIENT_DATA"
  else if 24 ≤ ns.length then
    let last_12 := listMean (tailN 12 ns)
    let prev_12 := listMean ((ns.drop (ns.length - 24)).take 12)
    if prev_12 * (11/10) < last_12 then "INCREASING"
    else if last_12 < prev_12 * (9/10) then "DECLINING"
    else "STABLE"
  else
    let first_half := listMean (ns.take (ns.length / 2))
    let second_half := listMean (tailN (ns.length / 2) ns)
    if first_half * (11/10) < second_half then "INCREASING"
    else if second_half < first_half * (9/10) then "DECLINING"
    else "STABLE"

/-- Source: `_categorize_reactivation_potential`: the six-rule ordered decision list
(first match wins), evaluated over the metrics of the normalized series.
Returns the `(category, score)` pair; the formatted analysis string is not
modelled. -/
def categorize_reactivation_potential (ns : List ℚ) : String × ℤ :=
  if 6 ≤ months_above HIGH_CONSISTENT ns ∧ HIGH_CONSISTENT ≤ recent_avg ns then
    ("HIGH_POTENTIAL", 95)
  else if 1 ≤ months_above SURGE_PEAK ns ∧ SURGE_PEAK ≤ recent_max ns then
    ("SURGE_POTENTIAL", 85)
  else if 3 ≤ months_above VIABLE_MINIMUM ns ∧ VIABLE_MINIMUM ≤ recent_avg ns then
    ("DECLINING_VIABLE", 70)
  else if SURGE_PEAK ≤ max_production_ever ns then
    ("SPORADIC_STRONG", 60)
  else if VIABLE_MINIMUM ≤ max_production_ever ns then
    ("SPORADIC_MODERATE", 40)
  else
    ("LOW_POTENTIAL", 20)

/-! Embedding: `src/analysis/reactivation.py` — `analyze_well` -/

/-- The per-well analysis result (the `metrics` sub-mapping and the wall-clock
`analysis_date` timestamp are not modelled; no claim depends on them). -/
structure AnalysisResult where
  category : String
  category_name : String
  reactivation_score : ℤ
  analysis : String
  business_recommendations : Recommendation
deriving DecidableEq, Repr

/-- Source: `_create_result(category, score, analysis)`. -/
def create_result (category : String) (score : ℤ) (analysis : String) :
    AnalysisResult :=
  { category := category
    category_name := category_name_of category
    reactivation_score := score
    analysis := analysis
    business_recommendations := generate_business_recommendations score category }

/-- Source: `analyze_well(production_records)`: empty input short-circuits to
`NO_DATA`; an input whose normalized series is empty short-circuits to
`NO_PRODUCTION`; otherwise the categorization runs on the normalized gas
series.  Total function — every input yields a fully-formed result. -/
def analyze_well (records : List ProdRecord) : AnalysisResult :=
  if records = [] then
    create_result "NO_DATA" 0 "No production data available"
  else
    let df := prepare_production_data records
    if df = [] then
      create_result "NO_PRODUCTION" 0 "No positive production months found"
    else
      let ns := df.map (fun r => gasOf records r)
      let cs := categorize_reactivation_potential ns
      create_result cs.1 cs.2 ""

/-! Embedding: `src/features/production.py`

`compute_recent_windows` receives a per-well DataFrame with `reportDate` and a
gas column; a row is modelled as a `(month index, gas)` pair.  The function
first sorts by `reportDate`, then selects the trailing 36-calendar-month
window `reportDate >= last_date - DateOffset(months=36)` (month indices make
this `last - 36 ≤ date`; all modelled dates are valid, so the `NaT` fallback
branch is unreachable). -/

/-- A monthly production row: `(reportDate as month index, gas_mcf)`. -/
abbrev ProdRow : Type := ℤ × ℚ

/-- Source: `df.sort_values('reportDate')` (stable). -/
def sortByDate (rows : List ProdRow) : List ProdRow :=
  List.insertionSort (fun a b => a.1 ≤ b.1) rows

/-- Largest report date of a batch of rows (`df['reportDate'].max()`). -/
def lastDate (rows : List ProdRow) : ℤ :=
  match rows.map Prod.fst with
  | [] => 0
  | d :: ds => ds.foldl max d

/-- Source: `recent = df[df['reportDate'] >= last_date - DateOffset(months=36)]`
over the date-sorted rows. -/
def recentRows (rows : List ProdRow) : List ProdRow :=
  let s := sortByDate rows
  s.filter (fun p => decide (lastDate rows - 36 ≤ p.1))

/-- Source: `recent['gas_mcf']` as a list in date order. -/
def recentGas (rows : List ProdRow) : List ℚ :=
  (recentRows rows).map Prod.snd

/-- Source: `gas_36m = float(recent['gas_mcf'].sum())` (0 on an empty DataFrame per
the early return). -/
def gas_36m (rows : List ProdRow) : ℚ :=
  if rows = [] then 0 else (recentGas rows).sum

/-- Source: `gas_24m = float(recent.tail(24)['gas_mcf'].sum())`. -/
def gas_24m (rows : List ProdRow) : ℚ :=
  if rows = [] then 0 else (tailN 24 (recentGas rows)).sum

/-- Source: `gas_12m = float(recent.tail(12)['gas_mcf'].sum())`. -/
def gas_12m (rows : List ProdRow) : ℚ :=
  if rows = [] then 0 else (tailN 12 (recentGas rows)).sum

/-- Source: `last_vals = recent.tail(12)['gas_mcf']`. -/
def last_vals (rows : List ProdRow) : List ℚ :=
  if rows = [] then [] else tailN 12 (recentGas rows)

/-- Source: `mean12 = last_vals.mean() if not last_vals.empty else 0.0`. -/
def mean12 (rows : List ProdRow) : ℚ := listMean (last_vals rows)

/-- Population variance of the trailing-12 values, so that
`std12 = last_vals.std(ddof=0)` is its square root. -/
def var12 (rows : List ProdRow) : ℚ :=
  if last_vals rows = [] then 0
  else ((last_vals rows).map
    (fun x => (x - listMean (last_vals rows)) ^ 2)).sum /
    ((last_vals rows).length : ℚ)

/-- Source: `cv_12m = float(std12 / mean12) if mean12 > 0 else 0.0` where
`std12 = last_vals.std(ddof=0)`. -/
noncomputable def cv_12m (rows : List ProdRow) : ℝ :=
  if 0 < mean12 rows then
    Real.sqrt ((var12 rows : ℚ) : ℝ) / ((mean12 rows : ℚ) : ℝ)
  else 0

/-- Source: `nonzero_frac_12m = float((last_vals > 0).mean()) if not last_vals.empty
else 0.0`. -/
def nonzero_frac_12m (rows : List ProdRow) : ℚ :=
  if last_vals rows = [] then 0
  else (((last_vals rows).filter (fun x => decide (0 < x))).length : ℚ) /
    ((last_vals rows).length : ℚ)

/-- Source: `peak12 = float(last_vals.max()) if not last_vals.empty else 0.0`. -/
def peak12 (rows : List ProdRow) : ℚ := listMax (last_vals rows)

/-- Source: `last_month_val = float(last_vals.iloc[-1]) if len(last_vals) > 0 else
0.0`. -/
def last_month_val (rows : List ProdRow) : ℚ :=
  ((last_vals rows).getLast?).getD 0

/-- Source: `last_to_peak_ratio_12m = float(last_month_val / peak12) if peak12 > 0
else 0.0`. -/
def last_to_peak_ratio_12m (rows : List ProdRow) : ℚ :=
  if 0 < peak12 rows then last_month_val rows / peak12 rows else 0

/-- Source: `compute_consistency_score(cv, nonzero_frac, last_to_peak)`:
`0.5 * (1 - clip(cv,0,1.5)/1.5) + 0.25 * clip(nonzero_frac,0,1) +
0.25 * clip(last_to_peak,0,1)`, clipped to `[0,1]`. -/
noncomputable def compute_consistency_score
    (cv nonzero_frac last_to_peak : ℝ) : ℝ :=
  let cv_component := 1 - clip cv 0 (3/2) / (3/2)
  clip (1/2 * cv_component + 1/4 * clip nonzero_frac 0 1 +
    1/4 * clip last_to_peak 0 1) 0 1

/-- The `consistency_score` attached to a well's feature row
(`engineer_features` feeds `cv_12m`, `nonzero_frac_12m`,
`last_to_peak_ratio_12m` into `compute_consistency_score`). -/
noncomputable def consistency_score (rows : List ProdRow) : ℝ :=
  compute_consistency_score (cv_12m rows)
    ((nonzero_frac_12m rows : ℚ) : ℝ) ((last_to_peak_ratio_12m rows : ℚ) : ℝ)

/-! Embedding: `compute_pre_shutin_metrics` — abrupt-stop flag

The flag is computed from the date-sorted gas series: `last_nz_idx` is the
last index with positive gas (`np.where(gas > 0)[0][-1]`), `post` is
everything after it, and the flag is 1 iff `post` is non-empty and all of
`post` is `≤ 0`. -/

/-- Source: `np.where(gas > 0)[0][-1]` as an `Option` (the caller early-returns when
no positive month exists). -/
def last_nz_idx (gas : List ℚ) : Option ℕ :=
  ((List.range gas.length).filter (fun i => decide (0 < gas.getD i 0))).getLast?

/-- Source: `abrupt_stop_flag = 1.0 if (not post.empty and (gas(post) <= 0).all())
else 0.0`, with the all-zero early return giving 0. -/
def abrupt_stop_flag (gas : List ℚ) : ℚ :=
  match last_nz_idx gas with
  | none => 0
  | some i =>
    let post := gas.drop (i + 1)
    if post ≠ [] ∧ ∀ x ∈ post, x ≤ 0 then 1 else 0

/-! Embedding: `src/pipelines/phase0_desktop.py` — batch ranking layer

`main` receives the `engineer_features` output: one feature row per well.
The ranking layer filters eligible wells, normalizes contributing features by
10th/90th-percentile anchors over the filtered batch, forms the fixed
weighted composite score, subtracts penalties, clips to `[0,1]`, and sorts
descending by score.  A feature row is modelled as a structure of rational
feature values (the feature-engine outputs are plain floats by this point). -/

/-- One row of the `feats` table built by `engineer_features`. -/
structure FeatRow where
  wellId : ℕ
  pre_stop_q90_mcf_d : ℚ
  pre_stop_peak_mcf : ℚ
  pre_stop_nonzero_frac : ℚ
  pre_stop_cv : ℚ
  gas_24m : ℚ
  consistency_score : ℚ
  dq_prod_cov : ℚ
  abrupt_stop_flag : ℚ
  months_since_prod : ℚ
  cv_12m : ℚ
  gas_36m : ℚ
  q90_mcf_d : ℚ
  nonzero_months_all : ℕ
deriving DecidableEq, Repr

/-- The eligibility filter `keep_mask`: any gas in the last 36 months, or a
positive rate proxy, or any nonzero month historically. -/
def eligible (r : FeatRow) : Prop :=
  0 < r.gas_36m ∨ 0 < r.q90_mcf_d ∨ 0 < r.nonzero_months_all

instance (r : FeatRow) : Decidable (eligible r) := by
  unfold eligible; infer_instance

/-- Source: `Series.quantile(q)` with the default linear interpolation: index
position `q * (n-1)` into the ascending sorted values, interpolating between
the two neighbouring order statistics. -/
def quantile (q : ℚ) (l : List ℚ) : ℚ :=
  let s := List.insertionSort (fun a b => a ≤ b) l
  let n := s.length
  if n = 0 then 0
  else
    let pos : ℚ := q * ((n : ℚ) - 1)
    let i : ℕ := (Int.toNat ⌊pos⌋)
    let frac : ℚ := pos - (i : ℚ)
    if i + 1 < n then s.getD i 0 + frac * (s.getD (i + 1) 0 - s.getD i 0)
    else s.getD i 0

/-- The `norm` helper of `main`:
`((s - q10) / max(q90 - q10, 1e-9)).clip(0, 1)` with percentile anchors taken
over the batch column `col`. -/
def norm_feature (col : List ℚ) (x : ℚ) : ℚ :=
  let q10 := quantile (1/10) col
  let q90 := quantile (9/10) col
  clip ((x - q10) / max (q90 - q10) (1/1000000000)) 0 1

/-- The composite score of row `r` within the (already filtered) batch
`feats`: the fixed weighted sum, minus the long-shut-in and erratic
penalties, clipped to `[0,1]`. -/
def composite_score (feats : List FeatRow) (r : FeatRow) : ℚ :=
  let base :=
    (35/100) * norm_feature (feats.map (·.pre_stop_q90_mcf_d)) r.pre_stop_q90_mcf_d +
    (20/100) * norm_feature (feats.map (·.pre_stop_peak_mcf)) r.pre_stop_peak_mcf +
    (10/100) * clip r.pre_stop_nonzero_frac 0 1 +
    (10/100) * (1 - clip r.pre_stop_cv 0 (3/2) / (3/2)) +
    (10/100) * norm_feature (feats.map (·.gas_24m)) r.gas_24m +
    (5/100) * r.consistency_score +
    (5/100) * r.dq_prod_cov +
    (5/100) * r.abrupt_stop_flag
  let penalty_long_shutin : ℚ := if 120 < r.months_since_prod then 15/100 else 0
  let penalty_erratic : ℚ := if 1/2 < r.cv_12m then 5/100 else 0
  clip (base - penalty_long_shutin - penalty_erratic) 0 1

/-- The scored table before sorting: the eligible rows, each paired with its
composite score over the eligible batch. -/
def scored_rows (batch : List FeatRow) : List (FeatRow × ℚ) :=
  (batch.filter (fun r => decide (eligible r))).map
    (fun r => (r, composite_score (batch.filter (fun r => decide (eligible r))) r))

/-- Source: `rank.sort_values('score', ascending=False)`: pandas computes an
ascending argsort of the score column and reverses the resulting indexer
(`nargsort`), so the output is the ascending-sorted table reversed.  (numpy's
default quicksort is unstable in general; it agrees with this stable model on
the small arrays evaluated below, and every consequence proved about all
batches — descending sortedness, permutation — holds for any argsort.) -/
def sort_ranked (l : List (FeatRow × ℚ)) : List (FeatRow × ℚ) :=
  (List.insertionSort (fun a b => a.2 ≤ b.2) l).reverse

instance : IsTotal (FeatRow × ℚ) (fun a b => a.2 ≤ b.2) :=
  ⟨fun a b => le_total a.2 b.2⟩

instance : IsTrans (FeatRow × ℚ) (fun a b => a.2 ≤ b.2) :=
  ⟨fun _ _ _ h1 h2 => le_trans h1 h2⟩

/-- The ranked candidate table: score, then sort descending. -/
def ranked_candidates (batch : List FeatRow) : List (FeatRow × ℚ) :=
  sort_ranked (scored_rows batch)

/-- A concrete eligible feature row (positive trailing-36-month gas, all
other features zero), used to instantiate the ranking-layer theorems. -/
def sample_row : FeatRow :=
  { wellId := 0, pre_stop_q90_mcf_d := 0, pre_stop_peak_mcf := 0
    pre_stop_nonzero_frac := 0, pre_stop_cv := 0, gas_24m := 0
    consistency_score := 0, dq_prod_cov := 0, abrupt_stop_flag := 0
    months_since_prod := 0, cv_12m := 0, gas_36m := 1, q90_mcf_d := 0
    nonzero_months_all := 0 }

/-- First of two feature rows that agree on every score-relevant feature and
differ only in `wellId`: a score tie. -/
def tie_row0 : FeatRow :=
  { wellId := 0, pre_stop_q90_mcf_d := 0, pre_stop_peak_mcf := 0
    pre_stop_nonzero_frac := 0, pre_stop_cv := 0, gas_24m := 0
    consistency_score := 0, dq_prod_cov := 0, abrupt_stop_flag := 0
    months_since_prod := 0, cv_12m := 0, gas_36m := 1, q90_mcf_d := 0
    nonzero_months_all := 0 }

/-- Second tied feature row (same features as `tie_row0`, later in input
order, different well identifier). -/
def tie_row1 : FeatRow :=
  { wellId := 1, pre_stop_q90_mcf_d := 0, pre_stop_peak_mcf := 0
    pre_stop_nonzero_frac := 0, pre_stop_cv := 0, gas_24m := 0
    consistency_score := 0, dq_prod_cov := 0, abrupt_stop_flag := 0
    months_since_prod := 0, cv_12m := 0, gas_36m := 1, q90_mcf_d := 0
    nonzero_months_all := 0 }

/-! Supporting lemmas -/

theorem clip_le_hi {α : Type} [LinearOrder α] {x lo hi : α} (h : lo ≤ hi) :
    clip x lo hi ≤ hi := by
  unfold clip
  exact max_le h (min_le_right _ _)

theorem lo_le_clip {α : Type} [LinearOrder α] (x lo hi : α) :
    lo ≤ clip x lo hi :=
  le_max_left _ _

theorem listMean_pos {l : List ℚ} (hne : l ≠ []) (hpos : ∀ x ∈ l, 0 < x) :
    0 < listMean l := by
  unfold listMean
  rw [if_neg hne]
  have hlen : 0 < (l.length : ℚ) := by
    have : 0 < l.length := List.length_pos.mpr hne
    exact_mod_cast this
  exact div_pos (List.sum_pos l hpos hne) hlen

theorem listMean_nonneg {l : List ℚ} (h : ∀ x ∈ l, 0 ≤ x) :
    0 ≤ listMean l := by
  unfold listMean
  split
  · exact le_refl 0
  · exact div_nonneg (List.sum_nonneg h) (Nat.cast_nonneg _)

theorem le_listMax {l : List ℚ} {x : ℚ} (hx : x ∈ l) : x ≤ listMax l := by
  have key : ∀ (t : List ℚ) (b y : ℚ), y = b ∨ y ∈ t → y ≤ t.foldl max b := by
    intro t
    induction t with
    | nil => intro b y hy; simp at hy; simp [hy]
    | cons c cs ih =>
      intro b y hy
      have hbc : max b c ≤ cs.foldl max (max b c) :=
        ih (max b c) (max b c) (Or.inl rfl)
      show y ≤ cs.foldl max (max b c)
      rcases hy with h | h
      · exact le_trans (by rw [h]; exact le_max_left b c) hbc
      · rcases List.mem_cons.mp h with h | h
        · exact le_trans (by rw [h]; exact le_max_right b c) hbc
        · exact ih (max b c) y (Or.inr h)
  match l, hx with
  | a :: as, hx =>
    show x ≤ as.foldl max a
    rcases List.mem_cons.mp hx with h | h
    · exact key as a x (Or.inl h)
    · exact key as a x (Or.inr h)

theorem listMax_nonneg {l : List ℚ} (h : ∀ x ∈ l, 0 ≤ x) : 0 ≤ listMax l := by
  match l with
  | [] => exact le_refl 0
  | a :: as =>
    exact (h a (List.mem_cons_self a as)).trans
      (le_listMax (List.mem_cons_self a as))

theorem sum_drop_le_sum {l : List ℚ} (h : ∀ x ∈ l, 0 ≤ x) (k : ℕ) :
    (l.drop k).sum ≤ l.sum := by
  conv_rhs => rw [← List.take_append_drop k l]
  rw [List.sum_append]
  have : 0 ≤ (l.take k).sum :=
    List.sum_nonneg (fun x hx => h x (List.take_subset k l hx))
  linarith

theorem sum_drop_mono {l : List ℚ} (h : ∀ x ∈ l, 0 ≤ x) {m m' : ℕ}
    (hmm : m ≤ m') : (l.drop m').sum ≤ (l.drop m).sum := by
  have hdd : (l.drop m).drop (m' - m) = l.drop m' := by
    rw [List.drop_drop]
    congr 1
    omega
  rw [← hdd]
  exact sum_drop_le_sum (fun x hx => h x (List.drop_subset m l hx)) _

theorem mem_of_mem_tailN {α : Type} {l : List α} {n : ℕ} {x : α}
    (hx : x ∈ tailN n l) : x ∈ l :=
  List.drop_subset _ l hx

/-! Claim theorems -/

/-- Claim C8: the recommendation generator is a pure band lookup over the score:
`score ≥ 85 → IMMEDIATE` block, else `score ≥ 70 → HIGH` block, else
`score ≥ 50 → MODERATE` block, else `LOW` block; every block is a fixed
constant and the result is independent of the category argument. -/
theorem C8_recommendation_band_lookup (s : ℤ) (c : String) :
    (85 ≤ s → generate_business_recommendations s c =
      { priority := "IMMEDIATE"
        action := "Fast-track to Phase 1 field survey"
        timeline := "Within 30 days"
        investment := "High confidence - consider fast-track acquisition"
        risk_level := "Low"
        next_steps := ["Schedule immediate site visit",
                       "Begin landowner contact",
                       "Prepare acquisition offer",
                       "Minimal reservoir validation needed"] }) ∧
    (¬ 85 ≤ s → 70 ≤ s → generate_business_recommendations s c =
      { priority := "HIGH"
        action := "Include in Phase 2 reservoir validation"
        timeline := "Within 60 days"
        investment := "Worth detailed technical assessment"
        risk_level := "Low-Medium"
        next_steps := ["Field survey in next batch",
                       "Reservoir engineering review",
                       "Infrastructure assessment",
                       "Economic modeling"] }) ∧
    (¬ 85 ≤ s → ¬ 70 ≤ s → 50 ≤ s → generate_business_recommendations s c =
      { priority := "MODERATE"
        action := "Conditional target - requires Phase 2 analysis"
        timeline := "Within 90 days"
        investment := "Lower priority unless exceptional circumstances"
        risk_level := "Medium"
        next_steps := ["Include in batch analysis",
                       "Detailed reservoir validation required",
                       "Economic sensitivity analysis",
                       "Consider as part of package deal"] }) ∧
    (¬ 85 ≤ s → ¬ 70 ≤ s → ¬ 50 ≤ s → generate_business_recommendations s c =
      { priority := "LOW"
        action := "Consider only if part of package deal"
        timeline := "No immediate action"
        investment := "High risk - avoid individual acquisition"
        risk_level := "High"
        next_steps := ["Monitor for status changes",
                       "Consider for package deals only",
                       "Low priority for resources"] }) ∧
    (∀ c' : String, generate_business_recommendations s c =
      generate_business_recommendations s c') := by
  refine ⟨fun h1 => ?_, fun h1 h2 => ?_, fun h1 h2 h3 => ?_,
    fun h1 h2 h3 => ?_, fun c' => rfl⟩
  · simp [generate_business_recommendations, BUSINESS_PRIORITY_IMMEDIATE,
      BUSINESS_PRIORITY_HIGH, BUSINESS_PRIORITY_MODERATE, h1]
  · simp [generate_business_recommendations, BUSINESS_PRIORITY_IMMEDIATE,
      BUSINESS_PRIORITY_HIGH, BUSINESS_PRIORITY_MODERATE, h1, h2]
  · simp [generate_business_recommendations, BUSINESS_PRIORITY_IMMEDIATE,
      BUSINESS_PRIORITY_HIGH, BUSINESS_PRIORITY_MODERATE, h1, h2, h3]
  · simp [generate_business_recommendations, BUSINESS_PRIORITY_IMMEDIATE,
      BUSINESS_PRIORITY_HIGH, BUSINESS_PRIORITY_MODERATE, h1, h2, h3]

/-- Witness for C8: the band lookup at score 90 returns the IMMEDIATE block. -/
theorem C8_recommendation_band_lookup_witness :
    (generate_business_recommendations 90 "HIGH_POTENTIAL").priority =
      "IMMEDIATE" := by
  rw [(C8_recommendation_band_lookup 90 "HIGH_POTENTIAL").1 (by norm_num)]

/-- Claim C2: `analyze_well` on an empty record list returns category `NO_DATA`
with score 0; on a non-empty list whose positive-gas/resolvable-date filter
leaves nothing it returns category `NO_PRODUCTION` with score 0.  (That a
fully-formed result is returned rather than an exception is expressed by
`analyze_well` being a total function into `AnalysisResult`.) -/
theorem C2_no_data_no_production (records : List ProdRecord) :
    (records = [] →
      (analyze_well records).category = "NO_DATA" ∧
      (analyze_well records).reactivation_score = 0) ∧
    (records ≠ [] → prepare_production_data records = [] →
      (analyze_well records).category = "NO_PRODUCTION" ∧
      (analyze_well records).reactivation_score = 0) := by
  constructor
  · intro h
    simp [analyze_well, h, create_result]
  · intro h1 h2
    simp [analyze_well, h1, h2, create_result]

/-- Witness for C2: the empty batch and a batch whose single record has no
positive gas both take the short-circuit paths. -/
theorem C2_no_data_no_production_witness :
    (analyze_well []).category = "NO_DATA" ∧
    (analyze_well [{ wellGas := some 0, totalGas := none,
                     reportDate := some (some 0), reportYear := none,
                     reportMonth := none }]).category = "NO_PRODUCTION" :=
  ⟨((C2_no_data_no_production []).1 rfl).1,
   ((C2_no_data_no_production _).2 (by decide) (by decide)).1⟩

/-- Claim C1: over any normalized series (non-empty, all-positive gas), the
categorization engine is the six-rule ordered decision list with first match
winning: months-above-4000 ≥ 6 and trailing-window average ≥ 4000 gives
`HIGH_POTENTIAL` 95; else months-above-20000 ≥ 1 and trailing-window max
≥ 20000 gives `SURGE_POTENTIAL` 85; else months-above-1000 ≥ 3 and
trailing-window average ≥ 1000 gives `DECLINING_VIABLE` 70; else all-time max
≥ 20000 gives `SPORADIC_STRONG` 60; else all-time max ≥ 1000 gives
`SPORADIC_MODERATE` 40; else `LOW_POTENTIAL` 20. -/
theorem C1_categorization_decision_list (ns : List ℚ) (hne : ns ≠ [])
    (hpos : ∀ x ∈ ns, 0 < x) :
    (6 ≤ months_above 4000 ns ∧ 4000 ≤ recent_avg ns →
      categorize_reactivation_potential ns = ("HIGH_POTENTIAL", 95)) ∧
    (¬ (6 ≤ months_above 4000 ns ∧ 4000 ≤ recent_avg ns) →
      1 ≤ months_above 20000 ns ∧ 20000 ≤ recent_max ns →
      categorize_reactivation_potential ns = ("SURGE_POTENTIAL", 85)) ∧
    (¬ (6 ≤ months_above 4000 ns ∧ 4000 ≤ recent_avg ns) →
      ¬ (1 ≤ months_above 20000 ns ∧ 20000 ≤ recent_max ns) →
      3 ≤ months_above 1000 ns ∧ 1000 ≤ recent_avg ns →
      categorize_reactivation_potential ns = ("DECLINING_VIABLE", 70)) ∧
    (¬ (6 ≤ months_above 4000 ns ∧ 4000 ≤ recent_avg ns) →
      ¬ (1 ≤ months_above 20000 ns ∧ 20000 ≤ recent_max ns) →
      ¬ (3 ≤ months_above 1000 ns ∧ 1000 ≤ recent_avg ns) →
      20000 ≤ max_production_ever ns →
      categorize_reactivation_potential ns = ("SPORADIC_STRONG", 60)) ∧
    (¬ (6 ≤ months_above 4000 ns ∧ 4000 ≤ recent_avg ns) →
      ¬ (1 ≤ months_above 20000 ns ∧ 20000 ≤ recent_max ns) →
      ¬ (3 ≤ months_above 1000 ns ∧ 1000 ≤ recent_avg ns) →
      ¬ 20000 ≤ max_production_ever ns →
      1000 ≤ max_production_ever ns →
      categorize_reactivation_potential ns = ("SPORADIC_MODERATE", 40)) ∧
    (¬ (6 ≤ months_above 4000 ns ∧ 4000 ≤ recent_avg ns) →
      ¬ (1 ≤ months_above 20000 ns ∧ 20000 ≤ recent_max ns) →
      ¬ (3 ≤ months_above 1000 ns ∧ 1000 ≤ recent_avg ns) →
      ¬ 20000 ≤ max_production_ever ns →
      ¬ 1000 ≤ max_production_ever ns →
      categorize_reactivation_potential ns = ("LOW_POTENTIAL", 20)) := by
  unfold categorize_reactivation_potential HIGH_CONSISTENT SURGE_PEAK
    VIABLE_MINIMUM
  refine ⟨fun h1 => by rw [if_pos h1],
    fun h1 h2 => by rw [if_neg h1, if_pos h2],
    fun h1 h2 h3 => by rw [if_neg h1, if_neg h2, if_pos h3],
    fun h1 h2 h3 h4 => by rw [if_neg h1, if_neg h2, if_neg h3, if_pos h4],
    fun h1 h2 h3 h4 h5 => by
      rw [if_neg h1, if_neg h2, if_neg h3, if_neg h4, if_pos h5],
    fun h1 h2 h3 h4 h5 => by
      rw [if_neg h1, if_neg h2, if_neg h3, if_neg h4, if_neg h5]⟩

/-- Witness for C1: a normalized series of six months at 4500 MCF (spec
Scenario B) takes the first rule and classifies `HIGH_POTENTIAL` with
score 95. -/
theorem C1_categorization_decision_list_witness :
    categorize_reactivation_potential
      [4500, 4500, 4500, 4500, 4500, 4500] = ("HIGH_POTENTIAL", 95) := by
  refine (C1_categorization_decision_list [4500, 4500, 4500, 4500, 4500, 4500]
    (by simp) (by intro x hx; fin_cases hx <;> norm_num)).1 ⟨?_, ?_⟩
  · norm_num [months_above, recent_df, tailN, ANALYSIS_MONTHS, List.filter]
  · have hnil : ([4500, 4500, 4500, 4500, 4500, 4500] : List ℚ) ≠ [] := by
      simp
    norm_num [recent_avg, recent_df, tailN, ANALYSIS_MONTHS, listMean, hnil]

/-- Claim C4: trend classification on a positive-gas series.  With ≥ 24 rows:
`INCREASING` when the mean of the last 12 rows exceeds 1.10 times the mean of
rows 13–24 from the end, `DECLINING` when it is beneath 0.90 times that mean,
`STABLE` otherwise.  With 12–23 rows the same thresholds are applied to the
means of the two count-based halves (the first and last `⌊n/2⌋` rows).  With
fewer than 12 rows the label is `INSUFFICIENT_DATA`. -/
theorem C4_trend_classification (ns : List ℚ) (hpos : ∀ x ∈ ns, 0 < x) :
    (24 ≤ ns.length →
      (listMean ((ns.drop (ns.length - 24)).take 12) * (11/10) <
          listMean (tailN 12 ns) →
        analyze_production_trend ns = "INCREASING") ∧
      (listMean (tailN 12 ns) <
          listMean ((ns.drop (ns.length - 24)).take 12) * (9/10) →
        analyze_production_trend ns = "DECLINING") ∧
      (¬ listMean ((ns.drop (ns.length - 24)).take 12) * (11/10) <
          listMean (tailN 12 ns) →
       ¬ listMean (tailN 12 ns) <
          listMean ((ns.drop (ns.length - 24)).take 12) * (9/10) →
        analyze_production_trend ns = "STABLE")) ∧
    (12 ≤ ns.length → ns.length < 24 →
      (listMean (ns.take (ns.length / 2)) * (11/10) <
          listMean (tailN (ns.length / 2) ns) →
        analyze_production_trend ns = "INCREASING") ∧
      (listMean (tailN (ns.length / 2) ns) <
          listMean (ns.take (ns.length / 2)) * (9/10) →
        analyze_production_trend ns = "DECLINING") ∧
      (¬ listMean (ns.take (ns.length / 2)) * (11/10) <
          listMean (tailN (ns.length / 2) ns) →
       ¬ listMean (tailN (ns.length / 2) ns) <
          listMean (ns.take (ns.length / 2)) * (9/10) →
        analyze_production_trend ns = "STABLE")) ∧
    (ns.length < 12 → analyze_production_trend ns = "INSUFFICIENT_DATA") := by
  refine ⟨fun h24 => ?_, fun h12 h24 => ?_, fun hlt => ?_⟩
  · have hn12 : ¬ ns.length < 12 := by omega
    have hprev_ne : (ns.drop (ns.length - 24)).take 12 ≠ [] := by
      have hlen : ((ns.drop (ns.length - 24)).take 12).length = 12 := by
        rw [List.length_take, List.length_drop]
        omega
      intro hcon
      rw [hcon] at hlen
      simp at hlen
    have hprev_pos : 0 < listMean ((ns.drop (ns.length - 24)).take 12) :=
      listMean_pos hprev_ne
        (fun x hx => hpos x (List.drop_subset _ ns (List.take_subset _ _ hx)))
    unfold analyze_production_trend
    rw [if_neg hn12, if_pos h24]
    refine ⟨fun hinc => by rw [if_pos hinc], fun hdec => ?_,
      fun hninc hndec => by rw [if_neg hninc, if_neg hndec]⟩
    have hninc : ¬ listMean ((ns.drop (ns.length - 24)).take 12) * (11/10) <
        listMean (tailN 12 ns) := by
      intro hcon
      nlinarith [hprev_pos, hdec, hcon]
    rw [if_neg hninc, if_pos hdec]
  · have hn12 : ¬ ns.length < 12 := by omega
    have hn24 : ¬ 24 ≤ ns.length := by omega
    have hfh_ne : ns.take (ns.length / 2) ≠ [] := by
      have hlen : (ns.take (ns.length / 2)).length = ns.length / 2 := by
        rw [List.length_take]
        omega
      intro hcon
      rw [hcon] at hlen
      simp at hlen
      omega
    have hfh_pos : 0 < listMean (ns.take (ns.length / 2)) :=
      listMean_pos hfh_ne (fun x hx => hpos x (List.take_subset _ _ hx))
    unfold analyze_production_trend
    rw [if_neg hn12, if_neg hn24]
    refine ⟨fun hinc => by rw [if_pos hinc], fun hdec => ?_,
      fun hninc hndec => by rw [if_neg hninc, if_neg hndec]⟩
    have hninc : ¬ listMean (ns.take (ns.length / 2)) * (11/10) <
        listMean (tailN (ns.length / 2) ns) := by
      intro hcon
      nlinarith [hfh_pos, hdec, hcon]
    rw [if_neg hninc, if_pos hdec]
  · unfold analyze_production_trend
    rw [if_pos hlt]

/-- Witness for C4: a 12-month series whose second half is more than 10%
above its first half classifies `INCREASING`, and an 11-month series is
`INSUFFICIENT_DATA`. -/
theorem C4_trend_classification_witness :
    analyze_production_trend
      [100, 100, 100, 100, 100, 100, 200, 200, 200, 200, 200, 200] =
      "INCREASING" ∧
    analyze_production_trend [5, 5, 5, 5, 5, 5, 5, 5, 5, 5, 5] =
      "INSUFFICIENT_DATA" := by
  constructor
  · refine ((C4_trend_classification
      [100, 100, 100, 100, 100, 100, 200, 200, 200, 200, 200, 200]
      (by intro x hx; fin_cases hx <;> norm_num)).2.1 (by simp) (by simp)).1 ?_
    have hnil1 : (([100, 100, 100, 100, 100, 100] : List ℚ)) ≠ [] := by simp
    have hnil2 : (([200, 200, 200, 200, 200, 200] : List ℚ)) ≠ [] := by simp
    norm_num [tailN, listMean, hnil1, hnil2]
  · exact (C4_trend_classification [5, 5, 5, 5, 5, 5, 5, 5, 5, 5, 5]
      (by intro x hx; fin_cases hx <;> norm_num)).2.2 (by simp)

theorem recentGas_nonneg {rows : List ProdRow} (h : ∀ p ∈ rows, 0 ≤ p.2) :
    ∀ x ∈ recentGas rows, 0 ≤ x := by
  intro x hx
  unfold recentGas recentRows sortByDate at hx
  obtain ⟨p, hp, rfl⟩ := List.mem_map.mp hx
  have hp2 := (List.mem_filter.mp hp).1
  exact h p ((List.mem_insertionSort _).mp hp2)

/-- Claim C9: for a series of non-negative gas values the trailing-window sums
are nested monotonically, `gas_12m ≤ gas_24m ≤ gas_36m`, because the 12- and
24-month sums are row-count tails of the rows selected for the 36-month
window. -/
theorem C9_nested_trailing_windows (rows : List ProdRow)
    (h : ∀ p ∈ rows, 0 ≤ p.2) :
    gas_12m rows ≤ gas_24m rows ∧ gas_24m rows ≤ gas_36m rows := by
  by_cases hrows : rows = []
  · unfold gas_12m gas_24m gas_36m
    rw [if_pos hrows, if_pos hrows, if_pos hrows]
    exact ⟨le_refl 0, le_refl 0⟩
  · have hg := recentGas_nonneg h
    unfold gas_12m gas_24m gas_36m tailN
    rw [if_neg hrows, if_neg hrows, if_neg hrows]
    constructor
    · exact sum_drop_mono hg (by omega)
    · exact sum_drop_le_sum hg _

/-- Witness for C9: a concrete 3-row series has nested window sums. -/
theorem C9_nested_trailing_windows_witness :
    gas_12m [((0 : ℤ), (7 : ℚ)), (1, 8), (2, 9)] ≤
      gas_24m [((0 : ℤ), (7 : ℚ)), (1, 8), (2, 9)] ∧
    gas_24m [((0 : ℤ), (7 : ℚ)), (1, 8), (2, 9)] ≤
      gas_36m [((0 : ℤ), (7 : ℚ)), (1, 8), (2, 9)] :=
  C9_nested_trailing_windows _ (by intro p hp; fin_cases hp <;> norm_num)

theorem last_vals_nonneg {rows : List ProdRow} (h : ∀ p ∈ rows, 0 ≤ p.2) :
    ∀ x ∈ last_vals rows, 0 ≤ x := by
  intro x hx
  unfold last_vals at hx
  split at hx
  · cases hx
  · exact recentGas_nonneg h x (mem_of_mem_tailN hx)

/-- Claim C3 (amended): for every series of non-negative gas values,
`nonzero_frac_12m`, `last_to_peak_ratio_12m` and the consistency score lie in
`[0,1]`, and `cv_12m` is non-negative — but `cv_12m` is *not* bounded by 1
(see the counterexample): the code clips the CV only inside the consistency
score, returning the raw `std/mean` ratio as `cv_12m`. -/
theorem C3_consistency_metric_bounds (rows : List ProdRow)
    (h : ∀ p ∈ rows, 0 ≤ p.2) :
    0 ≤ cv_12m rows ∧
    (0 ≤ nonzero_frac_12m rows ∧ nonzero_frac_12m rows ≤ 1) ∧
    (0 ≤ last_to_peak_ratio_12m rows ∧ last_to_peak_ratio_12m rows ≤ 1) ∧
    (0 ≤ consistency_score rows ∧ consistency_score rows ≤ 1) := by
  refine ⟨?_, ⟨?_, ?_⟩, ⟨?_, ?_⟩, ?_, ?_⟩
  · unfold cv_12m
    split_ifs with hm
    · exact div_nonneg (Real.sqrt_nonneg _) (by exact_mod_cast le_of_lt hm)
    · exact le_refl 0
  · unfold nonzero_frac_12m
    split_ifs
    · exact le_refl 0
    · exact div_nonneg (Nat.cast_nonneg _) (Nat.cast_nonneg _)
  · unfold nonzero_frac_12m
    split_ifs with hl
    · exact zero_le_one
    · rw [div_le_one (by
        have : 0 < (last_vals rows).length := List.length_pos.mpr hl
        exact_mod_cast this)]
      exact_mod_cast List.length_filter_le _ _
  · unfold last_to_peak_ratio_12m
    split_ifs with hpk
    · have hlv : last_vals rows ≠ [] := by
        intro hcon
        rw [peak12, hcon] at hpk
        simp [listMax] at hpk
      have hmem : last_month_val rows ∈ last_vals rows := by
        unfold last_month_val
        rw [List.getLast?_eq_getLast _ hlv]
        exact List.getLast_mem hlv
      exact div_nonneg (last_vals_nonneg h _ hmem) (le_of_lt hpk)
    · exact le_refl 0
  · unfold last_to_peak_ratio_12m
    split_ifs with hpk
    · have hlv : last_vals rows ≠ [] := by
        intro hcon
        rw [peak12, hcon] at hpk
        simp [listMax] at hpk
      have hmem : last_month_val rows ∈ last_vals rows := by
        unfold last_month_val
        rw [List.getLast?_eq_getLast _ hlv]
        exact List.getLast_mem hlv
      rw [div_le_one hpk]
      exact le_listMax hmem
    · exact zero_le_one
  · exact lo_le_clip _ 0 1
  · exact clip_le_hi zero_le_one

/-- Witness for C3 (amended): the bounds hold at a concrete 2-row series. -/
theorem C3_consistency_metric_bounds_witness :
    0 ≤ cv_12m [((0 : ℤ), (4 : ℚ)), (1, 6)] ∧
    (0 ≤ nonzero_frac_12m [((0 : ℤ), (4 : ℚ)), (1, 6)] ∧
      nonzero_frac_12m [((0 : ℤ), (4 : ℚ)), (1, 6)] ≤ 1) ∧
    (0 ≤ last_to_peak_ratio_12m [((0 : ℤ), (4 : ℚ)), (1, 6)] ∧
      last_to_peak_ratio_12m [((0 : ℤ), (4 : ℚ)), (1, 6)] ≤ 1) ∧
    (0 ≤ consistency_score [((0 : ℤ), (4 : ℚ)), (1, 6)] ∧
      consistency_score [((0 : ℤ), (4 : ℚ)), (1, 6)] ≤ 1) :=
  C3_consistency_metric_bounds _ (by intro p hp; fin_cases hp <;> norm_num)

/-- Claim C3 counterexample: on the non-negative series `[0, 0, 3]` the
trailing-12 coefficient of variation is `√2 > 1`, so `cv_12m` is not within
`[0,1]` as the claim states. -/
theorem C3_cv_exceeds_one :
    1 < cv_12m [((0 : ℤ), (0 : ℚ)), (1, 0), (2, 3)] := by
  have hrne : ([((0 : ℤ), (0 : ℚ)), (1, 0), (2, 3)] : List ProdRow) ≠ [] := by
    simp
  have hlv : last_vals [((0 : ℤ), (0 : ℚ)), (1, 0), (2, 3)] = [0, 0, 3] := by
    norm_num [last_vals, recentGas, recentRows, sortByDate, lastDate, tailN,
      List.insertionSort, List.orderedInsert, List.filter, hrne]
    exact fun hcon => absurd hcon hrne
  have hne3 : ([0, 0, 3] : List ℚ) ≠ [] := by simp
  have hml : listMean ([0, 0, 3] : List ℚ) = 1 := by
    norm_num [listMean, hne3]
  have hm : mean12 [((0 : ℤ), (0 : ℚ)), (1, 0), (2, 3)] = 1 := by
    rw [mean12, hlv, hml]
  have hv : var12 [((0 : ℤ), (0 : ℚ)), (1, 0), (2, 3)] = 2 := by
    rw [var12]
    simp only [hlv, hml]
    norm_num [hne3]
  rw [cv_12m, if_pos (by rw [hm]; norm_num)]
  rw [hm, hv]
  norm_num
  exact (Real.lt_sqrt (by norm_num)).mpr (by norm_num)

theorem le_getLast?_of_pairwise_lt {l : List ℕ} {i : ℕ}
    (hs : l.Pairwise (· < ·)) (hi : l.getLast? = some i) :
    ∀ j ∈ l, j ≤ i := by
  induction l with
  | nil => cases hi
  | cons a t ih =>
    match t with
    | [] =>
      intro j hj
      rcases List.mem_singleton.mp hj with rfl
      cases hi
      exact le_refl _
    | b :: t' =>
      have hlast : (b :: t').getLast? = some i :=
        (List.getLast?_cons_cons).symm.trans hi
      have hpair : (b :: t').Pairwise (· < ·) := (List.pairwise_cons.mp hs).2
      intro j hj
      rcases List.mem_cons.mp hj with rfl | hj
      · have hab : j < b := (List.pairwise_cons.mp hs).1 b
          (List.mem_cons_self b t')
        exact le_of_lt (lt_of_lt_of_le hab
          (ih hpair hlast b (List.mem_cons_self b t')))
      · exact ih hpair hlast j hj

theorem last_nz_idx_spec {gas : List ℚ} {i : ℕ}
    (h : last_nz_idx gas = some i) :
    ∀ j, i < j → j < gas.length → ¬ 0 < gas.getD j 0 := by
  intro j hij hj hpos
  have hmem : j ∈ (List.range gas.length).filter
      (fun k => decide (0 < gas.getD k 0)) :=
    List.mem_filter.mpr ⟨List.mem_range.mpr hj, by simpa using hpos⟩
  have hpw : ((List.range gas.length).filter
      (fun k => decide (0 < gas.getD k 0))).Pairwise (· < ·) :=
    (List.pairwise_lt_range _).filter _
  exact absurd (le_getLast?_of_pairwise_lt hpw h j hmem) (by omega)

/-- Claim C7 (amended): for a raw series with a positive month, every month
after the last positive month necessarily has non-positive production (that
condition is never violated), and the abrupt-stop flag is 1 exactly when at
least one month exists *after* the last positive month — the flag is 0 when
the series ends on its last positive month, even though the claimed
"every month after is non-positive" condition then holds vacuously. -/
theorem C7_abrupt_stop_flag_amended (gas : List ℚ) (i : ℕ)
    (h : last_nz_idx gas = some i) :
    (∀ x ∈ gas.drop (i + 1), x ≤ 0) ∧
    (abrupt_stop_flag gas = 1 ↔ gas.drop (i + 1) ≠ []) := by
  have hall : ∀ x ∈ gas.drop (i + 1), x ≤ 0 := by
    intro x hx
    obtain ⟨k, hk, hget⟩ := List.mem_iff_getElem.mp hx
    have hkl : i + 1 + k < gas.length := by
      have := hk
      rw [List.length_drop] at this
      omega
    have hdrop : (gas.drop (i + 1))[k] = gas[i + 1 + k] := by
      rw [List.getElem_drop]
    have hgetD : gas.getD (i + 1 + k) 0 = x := by
      rw [List.getD_eq_getElem _ _ hkl, ← hdrop, hget]
    have := last_nz_idx_spec h (i + 1 + k) (by omega) hkl
    rw [hgetD] at this
    exact le_of_not_lt this
  refine ⟨hall, ?_⟩
  constructor
  · intro h1
    simp only [abrupt_stop_flag, h] at h1
    by_contra hcon
    rw [if_neg (fun hc => hc.1 hcon)] at h1
    exact absurd h1 (by norm_num)
  · intro hne
    simp only [abrupt_stop_flag, h]
    rw [if_pos ⟨hne, hall⟩]

/-- Witness for C7 (amended): the 30-month series of spec Scenario D (24
positive months followed by 6 zero months) has last positive index 23 and
abrupt-stop flag 1. -/
theorem C7_abrupt_stop_flag_amended_witness :
    abrupt_stop_flag
      [5, 5, 5, 5, 5, 5, 5, 5, 5, 5, 5, 5, 5, 5, 5, 5, 5, 5, 5, 5, 5, 5, 5,
       5, 0, 0, 0, 0, 0, 0] = 1 :=
  (C7_abrupt_stop_flag_amended _ 23 (by decide)).2.mpr (by decide)

/-- Claim C7 counterexample: for the one-month series `[5]` the last positive
month is index 0, every month after it (there are none) trivially has
non-positive production, yet the abrupt-stop flag is 0 — refuting the claim
that the flag is 1 exactly when every month after the last positive month
has zero-or-negative production. -/
theorem C7_flag_zero_despite_condition :
    last_nz_idx [(5 : ℚ)] = some 0 ∧
    (∀ x ∈ ([(5 : ℚ)]).drop (0 + 1), x ≤ 0) ∧
    abrupt_stop_flag [(5 : ℚ)] = 0 := by
  refine ⟨by decide, by decide, ?_⟩
  have h : last_nz_idx [(5 : ℚ)] = some 0 := by decide
  simp [abrupt_stop_flag, h]

/-- Claim C10: gas-field resolution is decided once per batch over column
presence.  When any record of the batch carries the primary gas field, every
record's gas is read from the primary field only (missing value → 0) — the
fallback field is never consulted — so a record carrying only the fallback
field resolves to gas 0 and is excluded from the analyzed series. -/
theorem C10_batch_level_gas_resolution (records : List ProdRecord)
    (hp : ∃ r ∈ records, r.wellGas.isSome) :
    (∀ r ∈ records, gasOf records r = r.wellGas.getD 0) ∧
    (∀ q ∈ records, q.wellGas = none →
      gasOf records q = 0 ∧ q ∉ prepare_production_data records) := by
  obtain ⟨r0, hr0, hsome⟩ := hp
  have hany : records.any (fun s => s.wellGas.isSome) = true :=
    List.any_eq_true.mpr ⟨r0, hr0, hsome⟩
  have hgas : ∀ r ∈ records, gasOf records r = r.wellGas.getD 0 := by
    intro r _
    unfold gasOf
    rw [if_pos hany]
  refine ⟨hgas, fun q hq hqnone => ?_⟩
  have hq0 : gasOf records q = 0 := by
    rw [hgas q hq, hqnone]
    rfl
  refine ⟨hq0, fun hmem => ?_⟩
  have hfil := (List.mem_insertionSort _).mp hmem
  have hcond := (List.mem_filter.mp hfil).2
  rw [Bool.and_eq_true] at hcond
  have : 0 < gasOf records q := of_decide_eq_true hcond.1
  rw [hq0] at this
  exact absurd this (lt_irrefl 0)

/-- Witness for C10: in a batch where the first record carries `wellGas`, a
second record carrying only `totalGas` resolves to gas 0 and is excluded
from the prepared series. -/
theorem C10_batch_level_gas_resolution_witness :
    gasOf [{ wellGas := some 5, totalGas := none, reportDate := some (some 0),
             reportYear := none, reportMonth := none },
           { wellGas := none, totalGas := some 7, reportDate := some (some 1),
             reportYear := none, reportMonth := none }]
      { wellGas := none, totalGas := some 7, reportDate := some (some 1),
        reportYear := none, reportMonth := none } = 0 ∧
    ({ wellGas := none, totalGas := some 7, reportDate := some (some 1),
       reportYear := none, reportMonth := none } : ProdRecord) ∉
      prepare_production_data
        [{ wellGas := some 5, totalGas := none, reportDate := some (some 0),
           reportYear := none, reportMonth := none },
         { wellGas := none, totalGas := some 7, reportDate := some (some 1),
           reportYear := none, reportMonth := none }] :=
  (C10_batch_level_gas_resolution _
      ⟨{ wellGas := some 5, totalGas := none, reportDate := some (some 0),
         reportYear := none, reportMonth := none }, by decide, rfl⟩).2
    _ (by decide) rfl

/-- Claim C5: every entry of the ranked output carries a composite score equal
to the fixed weighted sum — 0.35·norm(pre-shut-in rate proxy) +
0.20·norm(pre-shut-in peak) + 0.10·clipped nonzero fraction +
0.10·inverted-clipped pre-shut-in CV + 0.10·norm(trailing-24-month sum) +
0.05·consistency + 0.05·data-quality coverage + 0.05·abrupt-stop flag —
minus 0.15 when months-since-production > 120 and minus 0.05 when
trailing-12 CV > 0.5, clipped to `[0,1]`, with percentile normalization
anchored over the eligible batch. -/
theorem C5_composite_score_weights (batch : List FeatRow) (p : FeatRow × ℚ)
    (hp : p ∈ ranked_candidates batch) :
    p.2 =
      clip (
        (35/100) * norm_feature
          ((batch.filter (fun r => decide (eligible r))).map
            (fun r => r.pre_stop_q90_mcf_d)) p.1.pre_stop_q90_mcf_d +
        (20/100) * norm_feature
          ((batch.filter (fun r => decide (eligible r))).map
            (fun r => r.pre_stop_peak_mcf)) p.1.pre_stop_peak_mcf +
        (10/100) * clip p.1.pre_stop_nonzero_frac 0 1 +
        (10/100) * (1 - clip p.1.pre_stop_cv 0 (3/2) / (3/2)) +
        (10/100) * norm_feature
          ((batch.filter (fun r => decide (eligible r))).map
            (fun r => r.gas_24m)) p.1.gas_24m +
        (5/100) * p.1.consistency_score +
        (5/100) * p.1.dq_prod_cov +
        (5/100) * p.1.abrupt_stop_flag -
        (if 120 < p.1.months_since_prod then 15/100 else 0) -
        (if 1/2 < p.1.cv_12m then 5/100 else 0)) 0 1 := by
  unfold ranked_candidates sort_ranked at hp
  have hp1 : p ∈ scored_rows batch :=
    (List.mem_insertionSort _).mp (List.mem_reverse.mp hp)
  unfold scored_rows at hp1
  obtain ⟨r, _, heq⟩ := List.mem_map.mp hp1
  subst heq
  rfl

/-- Witness for C5: the formula holds for the single entry of the ranked
table of the one-row batch `[sample_row]`. -/
theorem C5_composite_score_weights_witness :
    ((sample_row, composite_score
        ([sample_row].filter (fun r => decide (eligible r))) sample_row) :
      FeatRow × ℚ).2 =
      clip (
        (35/100) * norm_feature
          (([sample_row].filter (fun r => decide (eligible r))).map
            (fun r => r.pre_stop_q90_mcf_d))
          ((sample_row, composite_score
            ([sample_row].filter (fun r => decide (eligible r)))
            sample_row) : FeatRow × ℚ).1.pre_stop_q90_mcf_d +
        (20/100) * norm_feature
          (([sample_row].filter (fun r => decide (eligible r))).map
            (fun r => r.pre_stop_peak_mcf))
          ((sample_row, composite_score
            ([sample_row].filter (fun r => decide (eligible r)))
            sample_row) : FeatRow × ℚ).1.pre_stop_peak_mcf +
        (10/100) * clip ((sample_row, composite_score
            ([sample_row].filter (fun r => decide (eligible r)))
            sample_row) : FeatRow × ℚ).1.pre_stop_nonzero_frac 0 1 +
        (10/100) * (1 - clip ((sample_row, composite_score
            ([sample_row].filter (fun r => decide (eligible r)))
            sample_row) : FeatRow × ℚ).1.pre_stop_cv 0 (3/2) / (3/2)) +
        (10/100) * norm_feature
          (([sample_row].filter (fun r => decide (eligible r))).map
            (fun r => r.gas_24m))
          ((sample_row, composite_score
            ([sample_row].filter (fun r => decide (eligible r)))
            sample_row) : FeatRow × ℚ).1.gas_24m +
        (5/100) * ((sample_row, composite_score
            ([sample_row].filter (fun r => decide (eligible r)))
            sample_row) : FeatRow × ℚ).1.consistency_score +
        (5/100) * ((sample_row, composite_score
            ([sample_row].filter (fun r => decide (eligible r)))
            sample_row) : FeatRow × ℚ).1.dq_prod_cov +
        (5/100) * ((sample_row, composite_score
            ([sample_row].filter (fun r => decide (eligible r)))
            sample_row) : FeatRow × ℚ).1.abrupt_stop_flag -
        (if 120 < ((sample_row, composite_score
            ([sample_row].filter (fun r => decide (eligible r)))
            sample_row) : FeatRow × ℚ).1.months_since_prod
          then 15/100 else 0) -
        (if 1/2 < ((sample_row, composite_score
            ([sample_row].filter (fun r => decide (eligible r)))
            sample_row) : FeatRow × ℚ).1.cv_12m
          then 5/100 else 0)) 0 1 := by
  refine C5_composite_score_weights [sample_row] _ ?_
  have helig : decide (eligible sample_row) = true := by
    simp [eligible, sample_row]
  have hfil : [sample_row].filter (fun r => decide (eligible r)) =
      [sample_row] := by
    simp [List.filter, helig]
  unfold ranked_candidates sort_ranked scored_rows
  rw [hfil]
  simp [List.insertionSort, List.orderedInsert]

/-- Claim C6 (amended): the ranked output is a permutation of the scored rows,
sorted in descending order of composite score.  (Equal-score ties are *not*
emitted in input order — see the counterexample.) -/
theorem C6_sorted_descending (batch : List FeatRow) :
    (ranked_candidates batch).Pairwise (fun a b => b.2 ≤ a.2) ∧
    (ranked_candidates batch).Perm (scored_rows batch) := by
  constructor
  · unfold ranked_candidates sort_ranked
    rw [List.pairwise_reverse]
    exact List.sorted_insertionSort _ _
  · unfold ranked_candidates sort_ranked
    exact (List.reverse_perm _).trans (List.perm_insertionSort _ _)

/-- Claim C6 counterexample: two wells with equal composite scores
(`tie_row0` first in input order, `tie_row1` second) appear in the ranked
output in *reversed* input order — the descending sort reverses the
ascending argsort, so ties do not keep input order as the claim states. -/
theorem C6_equal_scores_reversed_order :
    composite_score ([tie_row0, tie_row1].filter
        (fun r => decide (eligible r))) tie_row0 =
      composite_score ([tie_row0, tie_row1].filter
        (fun r => decide (eligible r))) tie_row1 ∧
    (ranked_candidates [tie_row0, tie_row1]).map (fun p => p.1.wellId) =
      [1, 0] := by
  have helig0 : decide (eligible tie_row0) = true := by
    simp [eligible, tie_row0]
  have helig1 : decide (eligible tie_row1) = true := by
    simp [eligible, tie_row1]
  have hfil : [tie_row0, tie_row1].filter (fun r => decide (eligible r)) =
      [tie_row0, tie_row1] := by
    simp [List.filter, helig0, helig1]
  have hsc : composite_score [tie_row0, tie_row1] tie_row0 =
      composite_score [tie_row0, tie_row1] tie_row1 := rfl
  constructor
  · rw [hfil]
    exact hsc
  · have hle : composite_score [tie_row0, tie_row1] tie_row0 ≤
        composite_score [tie_row0, tie_row1] tie_row1 := le_of_eq hsc
    have hmk : ranked_candidates [tie_row0, tie_row1] =
        [(tie_row1, composite_score [tie_row0, tie_row1] tie_row1),
         (tie_row0, composite_score [tie_row0, tie_row1] tie_row0)] := by
      unfold ranked_candidates sort_ranked scored_rows
      rw [hfil]
      simp [List.insertionSort, List.orderedInsert, hle]
    rw [hmk]
    simp [tie_row0, tie_row1]

end OrphanWells
